import Mathlib

/-!
Verification development for `generate_icons.py`, the icon generator of the
not-today-mac-app repository.

The script builds raster icons with PIL: each renderer allocates a square RGBA
canvas and issues a straight-line sequence of `ImageDraw.ellipse` and
`ImageDraw.line` calls, and the menu-bar renderer finally downsamples its fixed
256-pixel canvas to the requested size.  The embedding mirrors that structure:

* a renderer is translated to the list of drawing commands it issues
  (`DrawCmd`), in source order, with the exact coordinate arithmetic of the
  script carried out in `ℚ` (the script computes coordinates in IEEE doubles;
  for every quantity appearing in a claim the double computation is exact or,
  in the case of the stroke width, provably agrees with the exact rational
  value, as argued at `create_app_icon_stroke_width`);
* the resulting bitmap samples each integer pixel coordinate against the ideal
  geometry of the commands, later commands overwriting earlier ones
  (`renderPixel`), which matches PIL's painter model;
* `Image.resize(.., LANCZOS)` is modelled as an exact area average over the
  source pixels that map onto each target pixel (`resizeImage`); any
  normalized resampling filter agrees with this model on windows where the
  source pixels are uniform, which is the only situation the theorems below
  rely on;
* the driver `main` is split into its directory-creation phase, modelled as a
  state transformer over the set of existing directories (`main_setup`), and
  its pure write list (`main_writes`).
-/

namespace NotTodayIcons

/-- RGBA color value, channels 0..255 (PIL 4-tuple). -/
abbrev Color := ℕ × ℕ × ℕ × ℕ

/-- RGB triple as returned by `hex_to_rgb`. -/
abbrev RGB := ℕ × ℕ × ℕ

/-- Source constant `RED = "#DC3545"`. -/
def RED : String := "#DC3545"

/-- Source constant `WHITE = "#FFFFFF"`. -/
def WHITE : String := "#FFFFFF"

/-- Source constant `BLACK = "#000000"`. -/
def BLACK : String := "#000000"

/-- Source constant `ICON_SIZES`: the (base size, scale) pairs for app icons. -/
def ICON_SIZES : List (ℕ × ℕ) :=
  [(16, 1), (16, 2), (32, 1), (32, 2), (64, 1), (64, 2),
   (128, 1), (128, 2), (256, 1), (256, 2), (512, 1), (512, 2)]

/-- Source constant `MENUBAR_SIZES`: the (base size, scale) pairs for menu-bar icons. -/
def MENUBAR_SIZES : List (ℕ × ℕ) := [(18, 1), (18, 2), (22, 1), (22, 2)]

/-- Value of a hexadecimal digit, upper or lower case, as accepted by
Python's `int(s, 16)` (the strings fed to it here are all valid hex). -/
def hexDigitVal (c : Char) : ℕ :=
  if '0' ≤ c ∧ c ≤ '9' then c.toNat - '0'.toNat
  else if 'a' ≤ c ∧ c ≤ 'f' then c.toNat - 'a'.toNat + 10
  else if 'A' ≤ c ∧ c ≤ 'F' then c.toNat - 'A'.toNat + 10
  else 0

/-- Base-16 reading of a digit string, as `int(s, 16)` does on valid input. -/
def parseHexNat (cs : List Char) : ℕ := cs.foldl (fun a c => 16 * a + hexDigitVal c) 0

/-- `hex_to_rgb` from the source: strip leading `#`, then read the character
pairs at offsets 0, 2 and 4 as base-16 numbers. -/
def hex_to_rgb (s : String) : RGB :=
  let h := s.data.dropWhile (fun c => c == '#')
  (parseHexNat ((h.drop 0).take 2),
   parseHexNat ((h.drop 2).take 2),
   parseHexNat ((h.drop 4).take 2))

/-- An RGB fill handed to a draw call on an RGBA canvas paints fully opaque
pixels: PIL completes the 3-tuple with alpha 255. -/
def rgba (c : RGB) : Color := (c.1, c.2.1, c.2.2, 255)

/-- The fully transparent color `(0, 0, 0, 0)`. -/
def transparent : Color := (0, 0, 0, 0)

/-- One PIL drawing call issued by a renderer: `ImageDraw.ellipse` with a
bounding box and fill, or `ImageDraw.line` with endpoints, fill and width. -/
inductive DrawCmd : Type
  | ellipse (x0 y0 x1 y1 : ℚ) (fill : Color)
  | line (x0 y0 x1 y1 : ℚ) (fill : Color) (width : ℕ)
  deriving DecidableEq

/-- The fill color of a drawing call. -/
def fillOf : DrawCmd → Color
  | .ellipse _ _ _ _ f => f
  | .line _ _ _ _ f _ => f

/-- Whether the ideal region of a drawing call contains the point `(px, py)`.
An ellipse call fills the closed ellipse inscribed in its bounding box (the
region is cut to the box itself, so a degenerate box fills no more than its
own points); a line
call of width `w` fills the closed rectangle of total width `w` centered on
the segment (PIL renders a wide line as exactly this quadrilateral; the
endpoint caps the script wants are separate ellipse calls, as in the source). -/
def covers : DrawCmd → ℚ → ℚ → Bool
  | .ellipse x0 y0 x1 y1 _, px, py =>
      let a := (x1 - x0) / 2
      let b := (y1 - y0) / 2
      let cx := (x0 + x1) / 2
      let cy := (y0 + y1) / 2
      decide (x0 ≤ px ∧ px ≤ x1 ∧ y0 ≤ py ∧ py ≤ y1 ∧
        b * b * ((px - cx) * (px - cx)) + a * a * ((py - cy) * (py - cy)) ≤
          a * a * (b * b))
  | .line x0 y0 x1 y1 _ w, px, py =>
      let dx := x1 - x0
      let dy := y1 - y0
      let len2 := dx * dx + dy * dy
      let t := (px - x0) * dx + (py - y0) * dy
      let cr := (px - x0) * dy - (py - y0) * dx
      decide (¬ len2 = 0 ∧ 0 ≤ t ∧ t ≤ len2 ∧ 4 * (cr * cr) ≤ (w : ℚ) * w * len2)

/-- Effect of one drawing call on the color already at a pixel. -/
def paintAt (c : DrawCmd) (px py : ℚ) (acc : Color) : Color :=
  if covers c px py then fillOf c else acc

/-- Color of the pixel at `(px, py)` after running a command list over a
background: later calls overwrite earlier ones, as on a PIL canvas. -/
def renderPixel (cmds : List DrawCmd) (bg : Color) (px py : ℚ) : Color :=
  cmds.foldl (fun acc c => paintAt c px py acc) bg

/-- A rendered bitmap: pixel dimensions plus the color at each integer pixel
coordinate (x column, y row). -/
structure Image where
  width : ℕ
  height : ℕ
  px : ℤ → ℤ → Color

/-- An ellipse call whose bounding box is a square around `(cx, cy)` with
half-side `r`, i.e. a filled circle of radius `r` centered at `(cx, cy)`. -/
def circleCmd (cx cy r : ℚ) (fill : Color) : DrawCmd :=
  DrawCmd.ellipse (cx - r) (cy - r) (cx + r) (cy + r) fill

/-- Stroke width computed by `create_app_icon`: `max(1, int(8 * scale))` with
`scale = size / 100`.  Python's `int` truncates toward zero, which on this
nonnegative value is the floor.  The script evaluates `8 * (size / 100)` in
IEEE doubles; the exact value `8 * size / 100 = 2 * size / 25` is either an
integer (when `25 ∣ size`, in which case `size / 100` and the product are
exactly representable and the double result is exact) or at distance at least
`1 / 25` from every integer, far beyond the relative rounding error of the two
double operations, so the double truncation agrees with the exact floor used
here for every `size`. -/
def create_app_icon_stroke_width (size : ℕ) : ℕ :=
  (max 1 ⌊8 * ((size : ℚ) / 100)⌋).toNat

/-- Drawing calls issued by `create_app_icon(size)`, in source order: the red
circle, the three white arrow strokes, and the four white round-cap circles. -/
def create_app_icon_cmds (size : ℕ) : List DrawCmd :=
  let scale : ℚ := (size : ℚ) / 100
  let circle_center := 50 * scale
  let circle_radius := 48 * scale
  let stroke_width := create_app_icon_stroke_width size
  let x := 50 * scale
  let y1 := 20 * scale
  let y2 := 55 * scale
  let left_x := 35 * scale
  let right_x := 65 * scale
  let arrow_y := 40 * scale
  let tip_x := 50 * scale
  let tip_y := 55 * scale
  let cap_radius : ℕ := stroke_width / 2
  [DrawCmd.ellipse (circle_center - circle_radius) (circle_center - circle_radius)
      (circle_center + circle_radius) (circle_center + circle_radius) (rgba (hex_to_rgb RED)),
   DrawCmd.line x y1 x y2 (rgba (hex_to_rgb WHITE)) stroke_width,
   DrawCmd.line left_x arrow_y tip_x tip_y (rgba (hex_to_rgb WHITE)) stroke_width,
   DrawCmd.line right_x arrow_y tip_x tip_y (rgba (hex_to_rgb WHITE)) stroke_width] ++
  ([(x, y1), (left_x, arrow_y), (right_x, arrow_y), (tip_x, tip_y)].map fun pt =>
    DrawCmd.ellipse (pt.1 - (cap_radius : ℚ)) (pt.2 - (cap_radius : ℚ))
      (pt.1 + (cap_radius : ℚ)) (pt.2 + (cap_radius : ℚ)) (rgba (hex_to_rgb WHITE)))

/-- `create_app_icon(size)`: a `size` by `size` RGBA canvas with transparent
background, painted with `create_app_icon_cmds`. -/
def create_app_icon (size : ℕ) : Image :=
  { width := size, height := size
    px := fun i j => renderPixel (create_app_icon_cmds size) transparent (i : ℚ) (j : ℚ) }

/-- Fixed internal render resolution of `create_menubar_icon` (`render_size = 256`). -/
def menubar_render_size : ℕ := 256

/-- Drawing calls issued by `create_menubar_icon` on its 256-pixel canvas, in
source order: the filled glyph-color circle of radius 110, the transparent
hole of radius 85 (both centered at (128, 128)), the three arrow strokes of
width 28, and the four round-cap circles of radius 14. -/
def create_menubar_icon_cmds (is_template : Bool) : List DrawCmd :=
  let color := if is_template then rgba (hex_to_rgb BLACK) else rgba (hex_to_rgb RED)
  let center : ℚ := 128
  let circle_radius : ℚ := 110
  let inner_radius : ℚ := 85
  let stroke_width : ℕ := 28
  let x := center
  let y1 : ℚ := 55
  let y2 : ℚ := 155
  let left_x : ℚ := 75
  let right_x : ℚ := 181
  let arrow_y : ℚ := 110
  let tip_y : ℚ := 165
  let cap_radius : ℕ := stroke_width / 2
  [DrawCmd.ellipse (center - circle_radius) (center - circle_radius)
      (center + circle_radius) (center + circle_radius) color,
   DrawCmd.ellipse (center - inner_radius) (center - inner_radius)
      (center + inner_radius) (center + inner_radius) transparent,
   DrawCmd.line x y1 x y2 color stroke_width,
   DrawCmd.line left_x arrow_y center tip_y color stroke_width,
   DrawCmd.line right_x arrow_y center tip_y color stroke_width] ++
  ([(x, y1), (left_x, arrow_y), (right_x, arrow_y), (center, tip_y)].map fun pt =>
    DrawCmd.ellipse (pt.1 - (cap_radius : ℚ)) (pt.2 - (cap_radius : ℚ))
      (pt.1 + (cap_radius : ℚ)) (pt.2 + (cap_radius : ℚ)) color)

/-- The 256 by 256 internal canvas of `create_menubar_icon`, before resizing. -/
def create_menubar_canvas (is_template : Bool) : Image :=
  { width := menubar_render_size, height := menubar_render_size
    px := fun i j =>
      renderPixel (create_menubar_icon_cmds is_template) transparent (i : ℚ) (j : ℚ) }

/-- Source pixel columns that the downsampling maps onto target column `i`:
those `k` with `⌊k * dst / src⌋ = i`.  The windows partition the source. -/
def resizeWindow (src dst : ℕ) (i : ℤ) : List ℕ :=
  (List.range src).filter (fun k => ((k * dst / src : ℕ) : ℤ) == i)

/-- Rounding and clamping of one resampled channel to 0..255. -/
def roundChannel (q : ℚ) : ℕ := min 255 (round q).toNat

/-- Model of `img.resize((dst, dst), Image.LANCZOS)`: each target pixel is the
rounded average of the source pixels whose windows map onto it.  The source
resamples with PIL's Lanczos filter; the spec describes the step as
"area-averaging/Lanczos-equivalent" resampling, and every normalized
resampling filter agrees with this area average on target pixels whose
contributing source region is uniform — the only kind of target pixel any
theorem below evaluates. -/
def resizeImage (img : Image) (dst : ℕ) : Image :=
  { width := dst, height := dst
    px := fun i j =>
      let W := resizeWindow img.width dst i
      let H := resizeWindow img.height dst j
      let pts := W.flatMap fun a => H.map fun b => (a, b)
      let n : ℚ := pts.length
      let avg := fun (chan : Color → ℕ) =>
        roundChannel ((pts.map fun p => ((chan (img.px (p.1 : ℤ) (p.2 : ℤ)) : ℚ))).sum / n)
      (avg (fun c => c.1), avg (fun c => c.2.1), avg (fun c => c.2.2.1),
       avg (fun c => c.2.2.2)) }

/-- Declared default of the `is_template` parameter of `create_menubar_icon`
(`is_template=True` in the source). -/
def create_menubar_icon_default_template : Bool := true

/-- `create_menubar_icon(target_size, is_template)`: paint the fixed 256-pixel
canvas, then downsample it to `target_size`. -/
def create_menubar_icon (target_size : ℕ) (is_template : Bool) : Image :=
  resizeImage (create_menubar_canvas is_template) target_size

/-- `os.path.join` on the relative POSIX paths the driver uses. -/
def joinPath (a b : String) : String := a ++ "/" ++ b

/-- The iconset destination directory of `main`. -/
def iconset_dir (script_dir : String) : String := joinPath script_dir "AppIcon.iconset"

/-- The resources destination directory of `main`. -/
def resources_dir (script_dir : String) : String :=
  joinPath (joinPath (joinPath (joinPath script_dir "NotToday") "Sources") "NotToday") "Resources"

/-- `os.makedirs(path, exist_ok=ok)` over a filesystem modelled as the list of
existing directories: creating an existing directory fails with
`FileExistsError` unless `exist_ok` is set, in which case it is a no-op. -/
def makedirs (dirs : List String) (path : String) (exist_ok : Bool) :
    Except String (List String) :=
  if path ∈ dirs then
    (if exist_ok then Except.ok dirs else Except.error "FileExistsError")
  else Except.ok (path :: dirs)

/-- Directory-creation phase of `main`: both destination directories are
created with `exist_ok=True`. -/
def main_setup (script_dir : String) (dirs : List String) : Except String (List String) := do
  let dirs1 ← makedirs dirs (iconset_dir script_dir) true
  makedirs dirs1 (resources_dir script_dir) true

/-- App-icon filename chosen by `main` for a (base size, scale) pair. -/
def app_icon_filename (base_size scale : ℕ) : String :=
  if scale = 1 then
    "icon_" ++ toString base_size ++ "x" ++ toString base_size ++ ".png"
  else
    "icon_" ++ toString base_size ++ "x" ++ toString base_size ++ "@" ++
      toString scale ++ "x.png"

/-- Menu-bar filename chosen by `main` for a (base size, scale) pair. -/
def menubar_icon_filename (base_size scale : ℕ) : String :=
  if scale = 1 then
    "menubar_icon_" ++ toString base_size ++ "x" ++ toString base_size ++ ".png"
  else
    "menubar_icon_" ++ toString base_size ++ "x" ++ toString base_size ++ "@" ++
      toString scale ++ "x.png"

/-- App-icon files written by `main`: for each pair, `create_app_icon` is
called at `actual_size = base_size * scale` and saved under the iconset
directory. -/
def main_app_writes (script_dir : String) : List (String × Image) :=
  ICON_SIZES.map fun p =>
    (joinPath (iconset_dir script_dir) (app_icon_filename p.1 p.2),
     create_app_icon (p.1 * p.2))

/-- Menu-bar files written by `main`: for each pair, `create_menubar_icon` is
called at `actual_size = base_size * scale` — with no second argument, so the
declared default of `is_template` applies — and saved under the resources
directory. -/
def main_menubar_writes (script_dir : String) : List (String × Image) :=
  MENUBAR_SIZES.map fun p =>
    (joinPath (resources_dir script_dir) (menubar_icon_filename p.1 p.2),
     create_menubar_icon (p.1 * p.2) create_menubar_icon_default_template)

/-- All files written by one run of `main`, in order. -/
def main_writes (script_dir : String) : List (String × Image) :=
  main_app_writes script_dir ++ main_menubar_writes script_dir

/-- One full run of `main` from a given filesystem state: the directory phase
followed by the (state-independent) list of file writes. -/
def main_run (script_dir : String) (dirs : List String) :
    Except String (List String × List (String × Image)) :=
  (main_setup script_dir dirs).map fun d => (d, main_writes script_dir)

/-- Two bitmaps are pixel-identical: same dimensions, same color at every
pixel coordinate. -/
def pixelIdentical (a b : Image) : Prop :=
  a.width = b.width ∧ a.height = b.height ∧ ∀ i j : ℤ, a.px i j = b.px i j

attribute [local semireducible] Rat.mul Rat.add Rat.sub Rat.inv

/-- Helper: a pixel lying outside the region of every issued command keeps the
background color of the canvas. -/
theorem renderPixel_eq_bg : ∀ (cmds : List DrawCmd) (bg : Color) (x y : ℚ),
    (∀ c ∈ cmds, covers c x y = false) → renderPixel cmds bg x y = bg
  | [], _, _, _, _ => rfl
  | c :: cs, bg, x, y, h => by
      have hc : covers c x y = false := h c (List.mem_cons_self c cs)
      have hstep : renderPixel (c :: cs) bg x y = renderPixel cs (paintAt c x y bg) x y := rfl
      rw [hstep, paintAt, hc]
      simp only [Bool.false_eq_true, if_false]
      exact renderPixel_eq_bg cs bg x y (fun d hd => h d (List.mem_cons_of_mem _ hd))

/-- C1: counterexample.  The claim says the arrow stroke width of
`create_app_icon` is `max(1, round(0.08 * size))` with halves rounded to the
nearest integer; at `size = 32` the code computes `int(8 * 0.32) = 2`, while
`round(2.56) = 3`. -/
theorem C1_counterexample :
    ¬ ((create_app_icon_stroke_width 32 : ℤ) = max 1 (round ((8 / 100 : ℚ) * 32))) := by
  decide

/-- C1 (amended): for every positive size, the stroke width `create_app_icon`
uses is `max(1, ⌊0.08 * size⌋)` — Python's `int` truncates toward zero (the
floor, on this nonnegative value) rather than rounding to nearest; equivalently
it is `max 1 (8 * size / 100)` with natural division. -/
theorem C1_stroke_width (size : ℕ) (h : 0 < size) :
    (create_app_icon_stroke_width size : ℤ) = max 1 ⌊8 * (size : ℚ) / 100⌋ ∧
    create_app_icon_stroke_width size = max 1 (8 * size / 100) := by
  have h2 : ⌊(8 : ℚ) * (size : ℚ) / 100⌋ = ((8 * size / 100 : ℕ) : ℤ) := by
    rw [Int.floor_eq_iff]
    constructor
    · rw [le_div_iff₀ (by norm_num : (0 : ℚ) < 100)]
      exact_mod_cast Nat.div_mul_le_self (8 * size) 100
    · rw [div_lt_iff₀ (by norm_num : (0 : ℚ) < 100)]
      have h4 := Nat.div_add_mod (8 * size) 100
      have h5 : (8 * size) % 100 < 100 := Nat.mod_lt _ (by norm_num)
      exact_mod_cast (by omega : 8 * size < ((8 * size / 100 : ℕ) + 1) * 100)
  have h1 : (8 : ℚ) * ((size : ℚ) / 100) = 8 * (size : ℚ) / 100 := by ring
  constructor
  · rw [create_app_icon_stroke_width, h1, h2]
    have : (0 : ℤ) ≤ max 1 ((8 * size / 100 : ℕ) : ℤ) :=
      le_trans zero_le_one (le_max_left _ _)
    rw [Int.toNat_of_nonneg this]
  · rw [create_app_icon_stroke_width, h1, h2]
    omega

/-- C1 witness: the amended statement instantiated at size 32, where the
stroke width is 2. -/
theorem C1_stroke_width_witness :
    0 < 32 ∧
    ((create_app_icon_stroke_width 32 : ℤ) = max 1 ⌊8 * ((32 : ℕ) : ℚ) / 100⌋ ∧
     create_app_icon_stroke_width 32 = max 1 (8 * 32 / 100)) :=
  ⟨by decide, C1_stroke_width 32 (by decide)⟩

/-- C7: on its 256-pixel canvas, `create_menubar_icon` draws the filled
glyph-color circle of radius 110 at (128, 128), punches the transparent hole
of radius 85, then draws the arrow: a vertical stroke (128, 55)–(128, 155),
two arrowhead strokes from (75, 110) and (181, 110) converging at (128, 165),
all of width 28, and round-cap circles of radius 14 at the four endpoints, in
the glyph color — black when the template flag is set, red otherwise. -/
theorem C7_menubar_commands (t : Bool) :
    create_menubar_icon_cmds t =
      (let color := if t then rgba (hex_to_rgb BLACK) else rgba (hex_to_rgb RED);
       [circleCmd 128 128 110 color,
        circleCmd 128 128 85 transparent,
        DrawCmd.line 128 55 128 155 color 28,
        DrawCmd.line 75 110 128 165 color 28,
        DrawCmd.line 181 110 128 165 color 28,
        circleCmd 128 55 14 color,
        circleCmd 75 110 14 color,
        circleCmd 181 110 14 color,
        circleCmd 128 165 14 color]) := by
  cases t <;> decide

/-- C9: the declared default of `is_template` is `True`, `main` calls
`create_menubar_icon` without that argument for every menu-bar pair, and the
glyph color of the template canvas is never the red fill: every menu-bar icon
the program writes is drawn in black. -/
theorem C9_always_template (sd : String) :
    create_menubar_icon_default_template = true ∧
    main_menubar_writes sd =
      MENUBAR_SIZES.map (fun p =>
        (joinPath (resources_dir sd) (menubar_icon_filename p.1 p.2),
         create_menubar_icon (p.1 * p.2) true)) ∧
    ((create_menubar_icon_cmds true).all
      fun c => ! (fillOf c == rgba (hex_to_rgb RED))) = true :=
  ⟨rfl, rfl, by decide⟩

/-- C3: for every (base size, scale) pair in `ICON_SIZES`, the bitmap the
driver generates — `create_app_icon(base_size * scale)`, which is what `main`
saves for that pair — is a square RGBA image of pixel dimensions exactly
`base_size * scale`, and its background is fully transparent: every pixel
outside the regions of all issued drawing commands has color (0, 0, 0, 0). -/
theorem C3_app_icon_dims (sd : String) (p : ℕ × ℕ) (hp : p ∈ ICON_SIZES) :
    (create_app_icon (p.1 * p.2)).width = p.1 * p.2 ∧
    (create_app_icon (p.1 * p.2)).height = p.1 * p.2 ∧
    create_app_icon (p.1 * p.2) ∈ (main_app_writes sd).map Prod.snd ∧
    ∀ i j : ℤ,
      ((create_app_icon_cmds (p.1 * p.2)).all
        fun c => ! covers c (i : ℚ) (j : ℚ)) = true →
      (create_app_icon (p.1 * p.2)).px i j = transparent := by
  refine ⟨rfl, rfl, ?_, ?_⟩
  · exact List.mem_map.2 ⟨(joinPath (iconset_dir sd) (app_icon_filename p.1 p.2),
      create_app_icon (p.1 * p.2)), List.mem_map.2 ⟨p, hp, rfl⟩, rfl⟩
  · intro i j hout
    refine renderPixel_eq_bg _ _ _ _ (fun c hc => ?_)
    have := (List.all_eq_true.1 hout) c hc
    simpa using this

/-- C3 witness: the pair (16, 1) with the corner pixel (0, 0), which lies
outside the circle and all arrow strokes. -/
theorem C3_app_icon_dims_witness :
    (16, 1) ∈ ICON_SIZES ∧
    (((create_app_icon_cmds (16 * 1)).all
        fun c => ! covers c ((0 : ℤ) : ℚ) ((0 : ℤ) : ℚ)) = true ∧
     (create_app_icon (16 * 1)).px 0 0 = transparent) :=
  ⟨by decide, by decide, (C3_app_icon_dims "s" (16, 1) (by decide)).2.2.2 0 0 (by decide)⟩

/-- C4: for every (base size, scale) pair in `MENUBAR_SIZES`, the bitmap the
driver generates — `create_menubar_icon(base_size * scale)` with the default
template flag — has pixel dimensions exactly `base_size * scale`, even though
the renderer always paints a fixed 256-by-256 internal canvas first. -/
theorem C4_menubar_dims (sd : String) (p : ℕ × ℕ) (hp : p ∈ MENUBAR_SIZES) :
    (create_menubar_icon (p.1 * p.2) create_menubar_icon_default_template).width = p.1 * p.2 ∧
    (create_menubar_icon (p.1 * p.2) create_menubar_icon_default_template).height = p.1 * p.2 ∧
    (create_menubar_canvas create_menubar_icon_default_template).width = 256 ∧
    (create_menubar_canvas create_menubar_icon_default_template).height = 256 ∧
    create_menubar_icon (p.1 * p.2) create_menubar_icon_default_template ∈
      (main_menubar_writes sd).map Prod.snd := by
  refine ⟨rfl, rfl, rfl, rfl, ?_⟩
  exact List.mem_map.2 ⟨(joinPath (resources_dir sd) (menubar_icon_filename p.1 p.2),
    create_menubar_icon (p.1 * p.2) create_menubar_icon_default_template),
    List.mem_map.2 ⟨p, hp, rfl⟩, rfl⟩

/-- C4 witness: the pair (22, 2), giving a 44-pixel bitmap. -/
theorem C4_menubar_dims_witness :
    (22, 2) ∈ MENUBAR_SIZES ∧
    (create_menubar_icon (22 * 2) create_menubar_icon_default_template).width = 22 * 2 :=
  ⟨by decide, (C4_menubar_dims "s" (22, 2) (by decide)).1⟩

/-- Helper: the filename `main` picks for an app-icon pair is the base name
`icon_{b}x{b}` followed by `.png` for scale 1 and by `@{scale}x.png`
otherwise. -/
theorem app_icon_filename_eq (b s : ℕ) :
    app_icon_filename b s =
      ("icon_" ++ toString b ++ "x" ++ toString b) ++
        (if s = 1 then ".png" else "@" ++ toString s ++ "x.png") := by
  by_cases hs : s = 1 <;>
    simp [app_icon_filename, hs, String.append_assoc]

/-- Helper: the filename `main` picks for a menu-bar pair, in base-plus-suffix
form. -/
theorem menubar_icon_filename_eq (b s : ℕ) :
    menubar_icon_filename b s =
      ("menubar_icon_" ++ toString b ++ "x" ++ toString b) ++
        (if s = 1 then ".png" else "@" ++ toString s ++ "x.png") := by
  by_cases hs : s = 1 <;>
    simp [menubar_icon_filename, hs, String.append_assoc]

/-- C5: for every pair the driver processes, the written file is named by the
base name (`icon_{b}x{b}` or `menubar_icon_{b}x{b}`) with suffix `.png` when
scale = 1 and `@{scale}x.png` otherwise, and app-icon files land in the
iconset directory while menu-bar files land in the resources directory. -/
theorem C5_filenames (sd : String) (p : ℕ × ℕ) :
    (p ∈ ICON_SIZES →
      (joinPath (iconset_dir sd)
        (("icon_" ++ toString p.1 ++ "x" ++ toString p.1) ++
          (if p.2 = 1 then ".png" else "@" ++ toString p.2 ++ "x.png")),
       create_app_icon (p.1 * p.2)) ∈ main_app_writes sd) ∧
    (p ∈ MENUBAR_SIZES →
      (joinPath (resources_dir sd)
        (("menubar_icon_" ++ toString p.1 ++ "x" ++ toString p.1) ++
          (if p.2 = 1 then ".png" else "@" ++ toString p.2 ++ "x.png")),
       create_menubar_icon (p.1 * p.2) create_menubar_icon_default_template) ∈
        main_menubar_writes sd) := by
  constructor
  · intro hp
    rw [← app_icon_filename_eq]
    exact List.mem_map.2 ⟨p, hp, rfl⟩
  · intro hp
    rw [← menubar_icon_filename_eq]
    exact List.mem_map.2 ⟨p, hp, rfl⟩

/-- C5 witness: the pair (128, 2) written as `icon_128x128@2x.png` in the
iconset directory. -/
theorem C5_filenames_witness :
    (128, 2) ∈ ICON_SIZES ∧
    (joinPath (iconset_dir "s")
      (("icon_" ++ toString 128 ++ "x" ++ toString 128) ++
        (if 2 = 1 then ".png" else "@" ++ toString 2 ++ "x.png")),
     create_app_icon (128 * 2)) ∈ main_app_writes "s" :=
  ⟨by decide, (C5_filenames "s" (128, 2)).1 (by decide)⟩

/-- C6: for every positive size, `create_app_icon` issues exactly one drawing
command filled with the red returned by `hex_to_rgb` on `#DC3545` — namely
(220, 53, 69) — and that command is the filled circle centered at the image
center (0.50 size, 0.50 size) with radius 0.48 size. -/
theorem C6_red_circle (size : ℕ) (h : 0 < size) :
    hex_to_rgb RED = (220, 53, 69) ∧
    (create_app_icon_cmds size).filter
        (fun c => fillOf c == rgba (hex_to_rgb RED)) =
      [circleCmd ((size : ℚ) / 2) ((size : ℚ) / 2) (48 * (size : ℚ) / 100)
        (rgba (hex_to_rgb RED))] := by
  have hw : rgba (hex_to_rgb WHITE) = (255, 255, 255, 255) := by decide
  have hr : rgba (hex_to_rgb RED) = (220, 53, 69, 255) := by decide
  refine ⟨by decide, ?_⟩
  simp only [create_app_icon_cmds, circleCmd, List.map_cons, List.map_nil,
    List.filter_append, List.filter_cons, List.filter_nil, fillOf, hw, hr]
  norm_num
  constructor <;> ring

/-- C6 witness: the amended statement instantiated at size 100, where the
circle is centered at (50, 50) with radius 48. -/
theorem C6_red_circle_witness :
    0 < 100 ∧
    (hex_to_rgb RED = (220, 53, 69) ∧
     (create_app_icon_cmds 100).filter
         (fun c => fillOf c == rgba (hex_to_rgb RED)) =
       [circleCmd (((100 : ℕ) : ℚ) / 2) (((100 : ℕ) : ℚ) / 2)
         (48 * ((100 : ℕ) : ℚ) / 100) (rgba (hex_to_rgb RED))]) :=
  ⟨by decide, C6_red_circle 100 (by decide)⟩

/-- Helper: the two destination directories of `main` are distinct paths for
every script directory (their relative parts differ). -/
theorem iconset_dir_ne_resources_dir (sd : String) : iconset_dir sd ≠ resources_dir sd := by
  intro hEq
  have hlen := congrArg String.length hEq
  simp only [iconset_dir, resources_dir, joinPath, String.length_append] at hlen
  have e1 : ("/" : String).length = 1 := by decide
  have e2 : ("AppIcon.iconset" : String).length = 15 := by decide
  have e3 : ("NotToday" : String).length = 8 := by decide
  have e4 : ("Sources" : String).length = 7 := by decide
  have e5 : ("Resources" : String).length = 9 := by decide
  rw [e1, e2, e3, e4, e5] at hlen
  omega

/-- C8: running the driver's directory-creation phase never errors, whatever
directories already exist (creation uses `exist_ok`, hence is idempotent), and
a second full run from the state the first run left behind succeeds and
produces the very same write list — in particular images of the same
dimensions. -/
theorem C8_idempotent (sd : String) (dirs : List String) :
    (main_run sd dirs).isOk = true ∧
    ∀ out, main_run sd dirs = Except.ok out → main_run sd out.1 = Except.ok (out.1, out.2) := by
  have hne := iconset_dir_ne_resources_dir sd
  have hsetup : ∀ ds : List String, iconset_dir sd ∈ ds → resources_dir sd ∈ ds →
      main_setup sd ds = Except.ok ds := by
    intro ds hi hr
    simp [main_setup, makedirs, Bind.bind, Except.bind, hi, hr]
  have hstep : ∃ ds2, main_setup sd dirs = Except.ok ds2 ∧
      iconset_dir sd ∈ ds2 ∧ resources_dir sd ∈ ds2 := by
    by_cases h1 : iconset_dir sd ∈ dirs
    · by_cases h2 : resources_dir sd ∈ dirs
      · exact ⟨dirs, by simp [main_setup, makedirs, Bind.bind, Except.bind, h1, h2], h1, h2⟩
      · refine ⟨resources_dir sd :: dirs, ?_,
          List.mem_cons_of_mem _ h1, List.mem_cons_self _ _⟩
        simp [main_setup, makedirs, Bind.bind, Except.bind, h1, h2]
    · by_cases h2 : resources_dir sd ∈ dirs
      · refine ⟨iconset_dir sd :: dirs, ?_,
          List.mem_cons_self _ _, List.mem_cons_of_mem _ h2⟩
        simp [main_setup, makedirs, Bind.bind, Except.bind, h1, h2, List.mem_cons]
      · refine ⟨resources_dir sd :: iconset_dir sd :: dirs, ?_,
          List.mem_cons_of_mem _ (List.mem_cons_self _ _), List.mem_cons_self _ _⟩
        have hnr : resources_dir sd ∉ iconset_dir sd :: dirs := by
          intro hmem
          rcases List.mem_cons.1 hmem with heq | hmem2
          · exact hne heq.symm
          · exact h2 hmem2
        simp [main_setup, makedirs, Bind.bind, Except.bind, h1, hnr]
  obtain ⟨ds2, hok, hi2, hr2⟩ := hstep
  constructor
  · simp only [main_run, hok]
    rfl
  · intro out hout
    have heq : main_run sd dirs = Except.ok (ds2, main_writes sd) := by
      simp only [main_run, hok]
      rfl
    rw [heq] at hout
    injection hout with h3
    subst h3
    show main_run sd ds2 = Except.ok (ds2, main_writes sd)
    simp only [main_run, hsetup ds2 hi2 hr2]
    rfl

/-- C8 witness: a run from the empty filesystem, then a run from the state it
produced. -/
theorem C8_idempotent_witness :
    main_run "s" [resources_dir "s", iconset_dir "s"] =
      Except.ok ([resources_dir "s", iconset_dir "s"], main_writes "s") :=
  (C8_idempotent "s" []).2 ([resources_dir "s", iconset_dir "s"], main_writes "s") rfl

set_option maxRecDepth 1000000 in
/-- C2: counterexample.  The claim says every menu-bar bitmap is fully
transparent at its exact center because of the punched hole; but the arrow's
vertical stroke (width 28 through (128, 55)–(128, 155) in the 256-space) is
drawn after the hole and covers the center, so at target size 18 the center
pixel (9, 9) of the returned bitmap has a nonzero alpha channel. -/
theorem C2_counterexample :
    ¬ (((create_menubar_icon 18 create_menubar_icon_default_template).px 9 9).2.2.2 = 0) := by
  decide

set_option maxRecDepth 1000000 in
/-- C2 (amended): for every (base size, scale) pair in `MENUBAR_SIZES`, the
bitmap returned by `create_menubar_icon` is NOT fully transparent at its
center pixel: the vertical arrow stroke is painted over the punched hole and
covers the center, so the center pixel's alpha is nonzero.  (The hole does
leave pixels away from the arrow fully transparent.) -/
theorem C2_center_not_transparent (p : ℕ × ℕ) (hp : p ∈ MENUBAR_SIZES) :
    ¬ (((create_menubar_icon (p.1 * p.2) create_menubar_icon_default_template).px
        ((p.1 * p.2 / 2 : ℕ) : ℤ) ((p.1 * p.2 / 2 : ℕ) : ℤ)).2.2.2 = 0) := by
  fin_cases hp <;> decide

/-- C2 witness: the amended statement instantiated at the pair (18, 1). -/
theorem C2_center_not_transparent_witness :
    (18, 1) ∈ MENUBAR_SIZES ∧
    ¬ (((create_menubar_icon (18 * 1) create_menubar_icon_default_template).px
        ((18 * 1 / 2 : ℕ) : ℤ) ((18 * 1 / 2 : ℕ) : ℤ)).2.2.2 = 0) :=
  ⟨by decide, C2_center_not_transparent (18, 1) (by decide)⟩

/-- C10: both renderers are deterministic — the embedding of each is a pure
function of its arguments (size, and for the menu-bar renderer the template
flag), so two calls with the same arguments yield pixel-identical bitmaps. -/
theorem C10_deterministic (size : ℕ) (flag : Bool) :
    pixelIdentical (create_app_icon size) (create_app_icon size) ∧
    pixelIdentical (create_menubar_icon size flag) (create_menubar_icon size flag) :=
  ⟨⟨rfl, rfl, fun _ _ => rfl⟩, ⟨rfl, rfl, fun _ _ => rfl⟩⟩

end NotTodayIcons
